import Mathlib

/-!
Verification of the Secure Ephemeral Container Execution Engine of the
GenAI-Toolbox repository against its natural-language specification.

The development shallowly embeds the three sandbox variants of the repository:

* `src/lib/agents/docker_sandbox.py` — the SDK-based sandbox (`DockerSandbox`
  with `_DockerFiles`, `_DockerCommands`, `run_code`, `stop`).  The container
  engine is modelled as a list of containers, each with an id, a name and a
  file system (an association list from absolute path to file content).  The
  engine's exec primitive (`container.exec_run`) is abstracted as a function
  from the container file system and the command string to an `ExecOutcome`
  (either demuxed output streams plus an exit code, or a raised transport
  error); the healthy-engine instantiation `execRunModel` interprets the
  shell commands this code actually issues (`cat`, `mkdir -p`, `rm`,
  `python3`) over the modelled file system, including bash word splitting of
  the unquoted interpolated command string.
* `src/lib/agents/sandbox.py` — the CLI-based sandbox (`DockerSandbox.run`
  with its create / cp-in / start / cp-out / rm-in-finally pipeline, plus
  `check_docker_security` and `build_sandbox_image`).  The outcomes of the
  `subprocess.run` calls to the docker CLI are supplied by a `RunOracle`.
* `src/dockersandbox/sandbox.py` — `DockerSandbox._verify_environment`,
  the security validator over the engine's info report.

Python exceptions are modelled with `Except`: a `.error` value is a raised
exception, a returned `.ok` value is a normal return.
-/

namespace GenAIToolbox

/-- Low-level process result from container exec (`DockerProcess` in
`docker_sandbox.py`): stdout, stderr and the numeric exit code. -/
structure DockerProcess where
  stdout : String
  stderr : String
  exit_code : Int
deriving Repr, DecidableEq

/-- Captured stdout/stderr of an execution (`DockerExecutionLogs`). -/
structure DockerExecutionLogs where
  stdout : String := ""
  stderr : String := ""
deriving Repr, DecidableEq

/-- Optional structured result artifact (`DockerExecutionResult`); the
payload is opaque for this development. -/
structure DockerExecutionResult where
  png : Option String := none
deriving Repr, DecidableEq

/-- High-level execution outcome (`DockerExecution`). -/
structure DockerExecution where
  logs : DockerExecutionLogs
  results : List DockerExecutionResult
deriving Repr, DecidableEq

/-- Exceptions that the embedded `docker_sandbox.py` operations can raise.
Each constructor corresponds to one `raise` site (or to the docker SDK
`NotFound` error propagating out of `containers.get`). -/
inductive SbxError where
  /-- `RuntimeError("Docker sandbox container is not running.")` -/
  | notRunning
  /-- `docker.errors.NotFound` raised by `containers.get` on a stale id. -/
  | notFound (cid : String)
  /-- `Exception` raised by `_DockerFiles.read` on a non-zero `cat` exit. -/
  | readFailed (path stderr : String)
  /-- `Exception` raised by `_DockerFiles.write` when `mkdir -p` fails. -/
  | mkdirFailed (dir stderr : String)
  /-- `IsADirectoryError` raised while staging the temp file (the
  `open(os.path.join(temp_dir, container_filename), "w")` call) when the
  file name is empty, `.` or `..`; re-raised wrapped by the surrounding
  `except` as a "Docker error during file write".  The temp-dir component
  of the real message is abstracted away. -/
  | stagingFailed (fname : String)
  /-- Failure of the `put_archive` injection itself (for instance the
  archive entry collides with an existing directory at the destination),
  re-raised wrapped as a "Docker error during file write". -/
  | putArchiveFailed (path : String)
deriving Repr, DecidableEq

/-- Python `str(e)` for the modelled exceptions, as used by `run_code`'s
`except` branch.  The `notFound` text models the docker SDK's rendering. -/
def SbxError.message : SbxError → String
  | .notRunning => "Docker sandbox container is not running."
  | .notFound cid => "404 Client Error: No such container: " ++ cid
  | .readFailed path stderr => "Failed to read file " ++ path ++ ": " ++ stderr
  | .mkdirFailed dir stderr => "Failed to create directory " ++ dir ++ ": " ++ stderr
  | .stagingFailed fname =>
    "Docker error during file write: [Errno 21] Is a directory: " ++ fname
  | .putArchiveFailed _ => "Docker error during file write: put_archive failed"

/-- One container as listed by the engine: its id, its human-readable name
and its file system, an association list from absolute file path to content
(directories are implicit; the containers this code lists are running). -/
structure ContainerRec where
  id : String
  name : String
  fs : List (String × String)
deriving Repr, DecidableEq

/-- The container engine state seen by `docker_sandbox.py`: the list of
existing containers. -/
structure Engine where
  containers : List ContainerRec
deriving Repr, DecidableEq

/-- `docker_client.containers.get cid`: the first listed container with the
given id, if any (`none` models the `NotFound` exception). -/
def Engine.findContainer (e : Engine) (cid : String) : Option ContainerRec :=
  e.containers.find? (fun c => c.id == cid)

/-- Replace the file system of the containers with the given id. -/
def Engine.setFs (e : Engine) (cid : String) (fs1 : List (String × String)) : Engine :=
  ⟨e.containers.map (fun c => if c.id == cid then { c with fs := fs1 } else c)⟩

/-- Store one file in the containers with the given id (the effect of a
successful `put_archive` of a single-file tar at the enclosing directory). -/
def fsSet (fs : List (String × String)) (p v : String) : List (String × String) :=
  (p, v) :: fs

/-- Store one file in the containers with the given id. -/
def Engine.setFile (e : Engine) (cid p v : String) : Engine :=
  ⟨e.containers.map (fun c => if c.id == cid then { c with fs := fsSet c.fs p v } else c)⟩

/-- `docker rm`-style removal: drop every container with the given id. -/
def Engine.removeContainer (e : Engine) (cid : String) : Engine :=
  ⟨e.containers.filter (fun c => c.id != cid)⟩

/-- The sandbox-instance state of `docker_sandbox.py`'s `DockerSandbox`:
`container_id` (an `Option`, `none` after `stop()`) and `container_name`. -/
structure SandboxState where
  containerId : Option String
  containerName : String
deriving Repr, DecidableEq

/-- A path `p` exists as a (non-empty) directory in the modelled file
system when some stored file lies strictly below it: `p ++ "/"` is a
literal prefix of a key.  Directories are implicit in the flat map and the
model has no symlinks. -/
def existsAsDir (fs : List (String × String)) (p : String) : Bool :=
  fs.any (fun kv => (p.data ++ ['/']).isPrefixOf kv.1.data)

/-- `mkdir -p dir` fails when `dir` itself, or a (literal) ancestor of it,
already exists as a regular file: the key equals `dir` or is a
slash-terminated prefix of it. -/
def mkdirConflict (fs : List (String × String)) (dir : String) : Bool :=
  fs.any (fun kv => kv.1 == dir || (kv.1.data ++ ['/']).isPrefixOf dir.data)

/-! ### Shell model

`_run_in_container` runs `/bin/bash -c '<command>'`.  The command strings
built by this code interpolate paths without quoting, so the shell splits
them on spaces.  The model interprets the command words this code issues. -/

/-- Bash word splitting of an (unquoted, metacharacter-free) command string:
split on spaces. -/
def splitOnSpace : List Char → List (List Char)
  | [] => [[]]
  | c :: cs =>
    let r := splitOnSpace cs
    if c = ' ' then [] :: r else (c :: r.headD []) :: r.tail

/-- The words of a shell command string (empty words collapse, as multiple
spaces do in the shell). -/
def shellWords (s : String) : List String :=
  ((splitOnSpace s.data).filter (fun w => !w.isEmpty)).map String.mk

/-- POSIX path resolution relative to the exec working directory
(`/app/workspace`): absolute operands stand, relative ones are prefixed. -/
def resolvePath (workdir arg : String) : String :=
  if arg.data.headD ' ' = '/' then arg else workdir ++ "/" ++ arg

/-- The `cat` utility over the modelled container file system: concatenate
the operands' contents on stdout; an operand that is a directory or is
missing yields a diagnostic on stderr and exit code 1. -/
def runCat (fs : List (String × String)) : List String → String × String × Int
  | [] => ("", "", 0)
  | a :: rest =>
    let r := runCat fs rest
    if existsAsDir fs (resolvePath "/app/workspace" a) then
      (r.1, "cat: " ++ a ++ ": Is a directory\n" ++ r.2.1, 1)
    else
      match fs.lookup (resolvePath "/app/workspace" a) with
      | some c => (c ++ r.1, r.2.1, r.2.2)
      | none => (r.1, "cat: " ++ a ++ ": No such file or directory\n" ++ r.2.1, 1)

/-- The `rm` utility over the modelled file system: delete the operands;
a missing operand yields a diagnostic and exit code 1. -/
def runRm (fs : List (String × String)) (args : List String) :
    DockerProcess × List (String × String) :=
  let paths := args.map (resolvePath "/app/workspace")
  let missing := paths.filter (fun p => (fs.lookup p).isNone)
  let fs1 := fs.filter (fun kv => !(paths.contains kv.1))
  if missing.isEmpty then (⟨"", "", 0⟩, fs1)
  else (⟨"", String.join (missing.map (fun p => "rm: cannot remove " ++ p ++ ": No such file or directory\n")), 1⟩, fs1)

/-- Interpretation of the shell command strings this code issues, over the
container file system: `cat`; `mkdir -p` (always issued with `-p` by this
code, so the operands are the words after `mkdir -p`), which fails when an
operand or one of its literal ancestors already exists as a regular file
and otherwise succeeds (directories stay implicit in the flat file map);
`rm`; and any other command word (such as `python3`) runs without touching
the modelled file system. -/
def shellExec (fs : List (String × String)) (cmd : String) : DockerProcess × List (String × String) :=
  let ws := shellWords cmd
  if ws.headD "" = "cat" then (let r := runCat fs ws.tail; (⟨r.1, r.2.1, r.2.2⟩, fs))
  else if ws.headD "" = "mkdir" then
    (if ws.tail.tail.any (fun a => mkdirConflict fs (resolvePath "/app/workspace" a)) then
      (⟨"", "mkdir: cannot create directory: File exists\n", 1⟩, fs)
    else (⟨"", "", 0⟩, fs))
  else if ws.headD "" = "rm" then runRm fs ws.tail
  else (⟨"", "", 0⟩, fs)

/-- What the engine's exec primitive (`container.exec_run`) does for one
call: either demuxed output streams (each possibly absent, as the SDK
returns `None` for a silent stream), an exit code and the resulting file
system, or a raised transport exception. -/
inductive ExecOutcome where
  | ret (out1 out2 : Option String) (code : Int) (fs1 : List (String × String))
  | raise (msg : String)
deriving Repr, DecidableEq

/-- The healthy-transport engine exec behavior: run the command under the
shell model; nothing is raised. -/
def execRunModel (fs : List (String × String)) (cmd : String) : ExecOutcome :=
  let r := shellExec fs cmd
  .ret (some r.1.stdout) (some r.1.stderr) r.1.exit_code r.2

/-- `DockerSandbox._run_in_container` (docker_sandbox.py lines 263-279): a
missing `container_id` raises `RuntimeError`; `containers.get` on a stale id
raises `NotFound` (this call is OUTSIDE the try/except); an exception raised
by `exec_run` itself is captured as a `DockerProcess` with empty stdout, a
diagnostic stderr and exit code 1; otherwise the demuxed streams are decoded
(`None` becomes the empty string) and returned with the exit code.
The engine exec behavior is the parameter `exec1`. -/
def runInContainer (exec1 : List (String × String) → String → ExecOutcome)
    (sb : SandboxState) (eng : Engine) (cmd : String) :
    Except SbxError (DockerProcess × Engine) :=
  match sb.containerId with
  | none => .error .notRunning
  | some cid =>
    match eng.findContainer cid with
    | none => .error (.notFound cid)
    | some c =>
      match exec1 c.fs cmd with
      | .ret o1 o2 code fs1 => .ok (⟨o1.getD "", o2.getD "", code⟩, eng.setFs cid fs1)
      | .raise msg => .ok (⟨"", "Docker exec error: " ++ msg, 1⟩, eng)

/-- `_DockerCommands.run`: a direct facade over `_run_in_container`. -/
def commandsRun (exec1 : List (String × String) → String → ExecOutcome)
    (sb : SandboxState) (eng : Engine) (cmd : String) :
    Except SbxError (DockerProcess × Engine) :=
  runInContainer exec1 sb eng cmd

/-- Test for a non-slash character. -/
def notSlash (c : Char) : Bool := c ≠ '/'

/-- Test for a slash character. -/
def isSlash (c : Char) : Bool := c = '/'

/-- `os.path.basename`: the part after the last slash. -/
def basenameL (cs : List Char) : List Char :=
  (cs.reverse.takeWhile notSlash).reverse

/-- The part of the path up to and including the last slash. -/
def headPartL (cs : List Char) : List Char :=
  (cs.reverse.dropWhile notSlash).reverse

/-- `os.path.dirname`: the part before the last slash, with trailing slashes
stripped unless the head is all slashes (POSIX `posixpath.dirname`). -/
def dirnameL (cs : List Char) : List Char :=
  if headPartL cs = [] then []
  else if (headPartL cs).all isSlash then headPartL cs
  else ((headPartL cs).reverse.dropWhile isSlash).reverse

/-- `os.path.dirname` on strings. -/
def dirname (s : String) : String := ⟨dirnameL s.data⟩

/-- `os.path.basename` on strings. -/
def basename (s : String) : String := ⟨basenameL s.data⟩

/-- Where a single-file tar with entry name `f`, injected by `put_archive`
at directory `t`, lands in the container file system. -/
def joinPath (t f : String) : String :=
  if t.data.getLast? = some '/' then t ++ f else t ++ "/" ++ f

/-- The directory-creation step of `_DockerFiles.write`: when the target
directory is neither empty nor the root, run `mkdir -p` on it through
`_run_in_container` and raise on a non-zero exit. -/
def mkdirStep (exec1 : List (String × String) → String → ExecOutcome)
    (sb : SandboxState) (eng : Engine) (dir : String) : Except SbxError Engine :=
  if dir ≠ "" ∧ dir ≠ "/" then
    match runInContainer exec1 sb eng ("mkdir -p " ++ dir) with
    | .error e => .error e
    | .ok (proc, eng1) =>
      if proc.exit_code ≠ 0 then .error (.mkdirFailed dir proc.stderr)
      else .ok eng1
  else .ok eng

/-- `_DockerFiles.write` (docker_sandbox.py lines 117-148): check the
container id, resolve the container (`containers.get`, whose `NotFound`
propagates), split the path, run `mkdir -p` on the directory when it is
neither empty nor the root (raising on a non-zero exit), then stage the
content into a temp file named by the path's basename and pack it into a
single-file tar — `open` of a name that is empty, `.` or `..` raises
`IsADirectoryError` there — and `put_archive` the tar at the directory,
which fails when the destination path is an existing directory.  Both
failures are re-raised wrapped as "Docker error during file write". -/
def filesWrite (exec1 : List (String × String) → String → ExecOutcome)
    (sb : SandboxState) (eng : Engine) (path content : String) :
    Except SbxError Engine :=
  match sb.containerId with
  | none => .error .notRunning
  | some cid =>
    match eng.findContainer cid with
    | none => .error (.notFound cid)
    | some c0 =>
      match mkdirStep exec1 sb eng (dirname path) with
      | .error e => .error e
      | .ok eng1 =>
        if basename path == "" || basename path == "." || basename path == ".." then
          .error (.stagingFailed (basename path))
        else
          if existsAsDir c0.fs
              (joinPath (if dirname path ≠ "" then dirname path else "/") (basename path)) then
            .error (.putArchiveFailed
              (joinPath (if dirname path ≠ "" then dirname path else "/") (basename path)))
          else
            .ok (eng1.setFile cid
              (joinPath (if dirname path ≠ "" then dirname path else "/") (basename path)) content)

/-- `_DockerFiles.read` (docker_sandbox.py lines 110-115): run `cat <path>`
in the container; a non-zero exit raises, otherwise the captured stdout is
the content. -/
def filesRead (exec1 : List (String × String) → String → ExecOutcome)
    (sb : SandboxState) (eng : Engine) (path : String) :
    Except SbxError (String × Engine) :=
  match runInContainer exec1 sb eng ("cat " ++ path) with
  | .error e => .error e
  | .ok (proc, eng1) =>
    if proc.exit_code ≠ 0 then .error (.readFailed path proc.stderr)
    else .ok (proc.stdout, eng1)

/-- `DockerSandbox.run_code` (docker_sandbox.py lines 281-291): write the
script body to a fresh temporary name (the random suffix is the parameter
`name`), run it with `python3`, remove it, and fold the captured streams
into a `DockerExecution`; any exception from these steps is caught and
returned as a `DockerExecution` whose stderr is the exception text, with
empty stdout and no results.  The function is total: nothing propagates. -/
def runCode (exec1 : List (String × String) → String → ExecOutcome)
    (sb : SandboxState) (eng : Engine) (name code : String) : DockerExecution :=
  let path := "/app/workspace/" ++ name
  match filesWrite exec1 sb eng path code with
  | .error e => ⟨⟨"", e.message⟩, []⟩
  | .ok eng1 =>
    match runInContainer exec1 sb eng1 ("python3 " ++ name) with
    | .error e => ⟨⟨"", e.message⟩, []⟩
    | .ok (proc, eng2) =>
      match runInContainer exec1 sb eng2 ("rm " ++ name) with
      | .error e => ⟨⟨"", e.message⟩, []⟩
      | .ok _ => ⟨⟨proc.stdout, proc.stderr⟩, []⟩

/-- `DockerSandbox.stop` (docker_sandbox.py lines 293-302): when a container
id is held, resolve it (`NotFound` is caught and ignored), stop and remove
the container, and clear `container_id`; with no id held, do nothing. -/
def stop (sb : SandboxState) (eng : Engine) : SandboxState × Engine :=
  match sb.containerId with
  | none => (sb, eng)
  | some cid => ({ sb with containerId := none }, eng.removeContainer cid)

/-! ### The CLI-based sandbox of `src/lib/agents/sandbox.py` -/

/-- Exceptions raised by `sandbox.py`'s `DockerSandbox.run`. -/
inductive RunError where
  /-- `ContainerRuntimeError` with its message. -/
  | containerRuntime (msg : String)
deriving Repr, DecidableEq

/-- `ExecutionResult` (sandbox.py lines 40-66): stdout, stderr, exit code
and the host path the artifacts were copied to. -/
structure ExecutionResult where
  stdout : String
  stderr : String
  exit_code : Int
  artifacts_path : String
deriving Repr, DecidableEq

/-- Outcome of the `docker create` call: on success the engine creates a
container and prints its id; on failure nothing is created and stderr
carries the message.  (The docker CLI prints the id exactly when creation
succeeded.) -/
inductive CreateOutcome where
  | ok (cid : String)
  | fail (errMsg : String)
deriving Repr, DecidableEq

/-- The outcomes of the docker CLI round-trips made by one
`DockerSandbox.run` call (sandbox.py lines 193-269): create, `docker cp`
into the container, `docker start -a -i` (whose return code is the
container's command exit code, or the CLI failure code), and `docker cp`
out.  `outputDir` is the `tempfile.mkdtemp` artifacts directory. -/
structure RunOracle where
  create : CreateOutcome
  cpInCode : Int
  cpInErr : String
  startCode : Int
  startOut : String
  startErr : String
  cpOutCode : Int
  outputDir : String
deriving Repr, DecidableEq

/-- `DockerSandbox.run` of sandbox.py over a CLI-level engine state (the
list of existing container ids): create the container (failure or an empty
printed id raises `ContainerRuntimeError`), copy the repository in (failure
raises `ContainerRuntimeError`), start attached (a non-zero return code
raises `ContainerRuntimeError`), copy artifacts out (failure only logged),
and in the `finally` block force-remove the container whenever an id was
obtained.  Returns the raised-or-returned outcome and the final engine
state. -/
def sandboxRun (eng : List String) (o : RunOracle) :
    Except RunError ExecutionResult × List String :=
  match o.create with
  | .fail msg =>
    (.error (.containerRuntime ("Failed to create container:\n" ++ msg)), eng)
  | .ok cid =>
    let eng1 := cid :: eng
    let cleaned := eng1.filter (fun x => x != cid)
    if o.cpInCode ≠ 0 then
      (.error (.containerRuntime ("Failed to copy code into container:\n" ++ o.cpInErr)), cleaned)
    else if o.startCode ≠ 0 then
      (.error (.containerRuntime ("Container exited with non-zero code " ++ toString o.startCode ++ ":\n" ++ o.startErr)), cleaned)
    else
      (.ok ⟨o.startOut, o.startErr, o.startCode, o.outputDir⟩, cleaned)

/-! ### The security validator of `src/dockersandbox/sandbox.py` -/

/-- The engine info report consumed by `_verify_environment`: the
`SecurityOptions` list, the keys of the `Runtimes` map, and the tags of the
installed images. -/
structure EngineInfo where
  securityOptions : List String
  runtimes : List String
  images : List String
deriving Repr, DecidableEq

/-- The `SecurityEnvironmentError` variants `_verify_environment` raises,
in check order: rootless missing, runsc runtime missing, image missing. -/
inductive SecurityEnvironmentError where
  | rootless
  | runsc
  | imageMissing (image : String)
deriving Repr, DecidableEq

/-- Python `str.lower`. -/
def lowerStr (s : String) : String := ⟨s.data.map Char.toLower⟩

/-- Python's substring test `pat in s`. -/
def isSubL : List Char → List Char → Bool
  | pat, [] => pat.isEmpty
  | pat, h :: t => pat.isPrefixOf (h :: t) || isSubL pat t

/-- Python's substring test on strings. -/
def containsSubstr (s pat : String) : Bool := isSubL pat.data s.data

/-- `DockerSandbox._verify_environment` (dockersandbox/sandbox.py lines
80-99): fail if no security option mentions rootless (case-insensitively),
then fail if `runsc` is not a key of the runtimes map, then fail if the
target image is not resolvable; otherwise succeed.  The checks only read
the info report; no container is created. -/
def verifyEnvironment (info : EngineInfo) (imageName : String) :
    Except SecurityEnvironmentError Unit :=
  if !(info.securityOptions.any (fun opt => containsSubstr (lowerStr opt) "rootless")) then
    .error .rootless
  else if !(info.runtimes.contains "runsc") then
    .error .runsc
  else if !(info.images.contains imageName) then
    .error (.imageMissing imageName)
  else
    .ok ()

/-! ### The image provisioner -/

/-- Engine state for image provisioning: the installed image tags and a
counter of build invocations (`images.build` calls). -/
structure ImageEngine where
  images : List String
  buildCount : Nat
deriving Repr, DecidableEq

/-- The image-ensuring step of `_ensure_image_and_container`
(docker_sandbox.py lines 207-225): `images.get` on the tag; on
`ImageNotFound`, build the image from the in-memory Dockerfile (one build
invocation, after which the tag is installed); otherwise do nothing. -/
def ensureImage (e : ImageEngine) (tag : String) : ImageEngine :=
  if e.images.contains tag then e
  else ⟨tag :: e.images, e.buildCount + 1⟩

/-! ### Shell-safe names -/

/-- A string whose character list starts with a cons is not empty. -/
lemma ne_empty_of_data_cons (s : String) (c : Char) (t : List Char)
    (h : s.data = c :: t) : s ≠ "" := by
  intro hc
  rw [hc] at h
  exact List.noConfusion h

/-- After stop, the handle holds no container id. -/
lemma stop_containerId_none (sb : SandboxState) (eng : Engine) :
    (stop sb eng).1.containerId = none := by
  cases hs : sb.containerId <;> simp [stop, hs]

/-! ### Claims -/

/-- C4: for every engine-info report whose security-options list contains no
entry mentioning rootless (case-insensitively), `_verify_environment` raises
`SecurityEnvironmentError` for the rootless check, independently of the
runtimes map and the installed images; the check is a pure read of the info
report, so no container is created. -/
theorem validate_rootless_missing (info : EngineInfo) (imageName : String)
    (h : ∀ opt ∈ info.securityOptions, containsSubstr (lowerStr opt) "rootless" = false) :
    verifyEnvironment info imageName = .error .rootless := by
  have hany : info.securityOptions.any
      (fun opt => containsSubstr (lowerStr opt) "rootless") = false := by
    rw [List.any_eq_false]
    intro x hx
    simp [h x hx]
  simp [verifyEnvironment, hany]

/-- Witness for C4 at a concrete info report with runtimes and image present. -/
theorem validate_rootless_missing_witness :
    (∀ opt ∈ ["name=seccomp,profile=builtin"],
      containsSubstr (lowerStr opt) "rootless" = false) ∧
    verifyEnvironment ⟨["name=seccomp,profile=builtin"], ["runsc", "runc"], ["sandbox-base"]⟩
      "sandbox-base" = .error .rootless :=
  ⟨by decide, validate_rootless_missing _ _ (by decide)⟩

/-- C5: for every engine-info report where some security option mentions
rootless but `runsc` is not a key of the runtimes map,
`_verify_environment` raises `SecurityEnvironmentError` for the runtime
check, whatever the installed images — so the runtime check precedes the
image check; and with the security options emptied as well, the error is the
rootless one, so the rootless check precedes the runtime check (fail on
first violated check). -/
theorem validate_runsc_missing (info : EngineInfo) (imageName : String)
    (hroot : info.securityOptions.any
      (fun opt => containsSubstr (lowerStr opt) "rootless") = true)
    (hrunsc : info.runtimes.contains "runsc" = false) :
    verifyEnvironment info imageName = .error .runsc ∧
    verifyEnvironment ⟨[], info.runtimes, info.images⟩ imageName = .error .rootless := by
  have hr2 : "runsc" ∉ info.runtimes := by simpa using hrunsc
  constructor
  · simp [verifyEnvironment, hroot, hr2]
  · simp [verifyEnvironment]

/-- Witness for C5 at a concrete info report (image also missing, so the
error is determined by the check order). -/
theorem validate_runsc_missing_witness :
    (["name=rootless"].any (fun opt => containsSubstr (lowerStr opt) "rootless") = true) ∧
    (["runc"].contains "runsc" = false) ∧
    verifyEnvironment ⟨["name=rootless"], ["runc"], []⟩ "sandbox-base" = .error .runsc ∧
    verifyEnvironment ⟨[], ["runc"], []⟩ "sandbox-base" = .error .rootless :=
  ⟨by decide, by decide,
    (validate_runsc_missing ⟨["name=rootless"], ["runc"], []⟩ "sandbox-base"
      (by decide) (by decide)).1,
    (validate_runsc_missing ⟨["name=rootless"], ["runc"], []⟩ "sandbox-base"
      (by decide) (by decide)).2⟩

/-- C6: `ensureImage` is idempotent — starting from a state where the tag is
absent, the first call performs exactly one build, the second call with the
same tag is a no-op, and the total number of build invocations across both
calls is one. -/
theorem ensureImage_idempotent (e : ImageEngine) (tag : String)
    (h : e.images.contains tag = false) :
    (ensureImage e tag).buildCount = e.buildCount + 1 ∧
    ensureImage (ensureImage e tag) tag = ensureImage e tag ∧
    (ensureImage (ensureImage e tag) tag).buildCount = e.buildCount + 1 := by
  have hmem : tag ∉ e.images := by simpa using h
  have h1 : ensureImage e tag = ⟨tag :: e.images, e.buildCount + 1⟩ := by
    simp [ensureImage, hmem]
  have h2 : ensureImage (⟨tag :: e.images, e.buildCount + 1⟩ : ImageEngine) tag
      = ⟨tag :: e.images, e.buildCount + 1⟩ := by
    simp [ensureImage]
  refine ⟨by rw [h1], by rw [h1, h2], by rw [h1, h2]⟩

/-- Witness for C6 at an empty image store and the tag the code uses. -/
theorem ensureImage_idempotent_witness :
    ((⟨[], 0⟩ : ImageEngine).images.contains "agent-worker-uv" = false) ∧
    (ensureImage ⟨[], 0⟩ "agent-worker-uv").buildCount = 0 + 1 ∧
    ensureImage (ensureImage ⟨[], 0⟩ "agent-worker-uv") "agent-worker-uv"
      = ensureImage ⟨[], 0⟩ "agent-worker-uv" ∧
    (ensureImage (ensureImage ⟨[], 0⟩ "agent-worker-uv") "agent-worker-uv").buildCount = 0 + 1 :=
  ⟨by decide,
    (ensureImage_idempotent ⟨[], 0⟩ "agent-worker-uv" (by decide)).1,
    (ensureImage_idempotent ⟨[], 0⟩ "agent-worker-uv" (by decide)).2.1,
    (ensureImage_idempotent ⟨[], 0⟩ "agent-worker-uv" (by decide)).2.2⟩

/-- C7: an engine failure during `docker create` surfaces as
`ContainerRuntimeError` (wrapping the CLI stderr, not the raw error) with
the engine unchanged (no container to remove), and a failure of the
attached start likewise surfaces as `ContainerRuntimeError` while the
created container has still been removed before the error propagates. -/
theorem run_wraps_create_start_failures (engB : List String) (o : RunOracle) :
    (∀ msg, o.create = .fail msg →
      sandboxRun engB o
        = (.error (.containerRuntime ("Failed to create container:\n" ++ msg)), engB)) ∧
    (∀ cid, o.create = .ok cid → o.cpInCode = 0 → o.startCode ≠ 0 →
      (sandboxRun engB o).1
        = .error (.containerRuntime ("Container exited with non-zero code "
            ++ toString o.startCode ++ ":\n" ++ o.startErr)) ∧
      cid ∉ (sandboxRun engB o).2) := by
  constructor
  · intro msg hc
    simp [sandboxRun, hc]
  · intro cid hc hcp hst
    refine ⟨by simp [sandboxRun, hc, hcp, hst], ?_⟩
    simp [sandboxRun, hc, hcp, hst, List.mem_filter]

/-- Witness for C7: a failing create, and a create that succeeds followed by
a failing start. -/
theorem run_wraps_failures_witness :
    sandboxRun [] ⟨.fail "boom", 0, "", 0, "", "", 0, "/tmp/a"⟩
      = (.error (.containerRuntime "Failed to create container:\nboom"), []) ∧
    (sandboxRun [] ⟨.ok "abc", 0, "", 2, "", "err", 0, "/tmp/a"⟩).1
      = .error (.containerRuntime "Container exited with non-zero code 2:\nerr") ∧
    "abc" ∉ (sandboxRun [] ⟨.ok "abc", 0, "", 2, "", "err", 0, "/tmp/a"⟩).2 :=
  ⟨(run_wraps_create_start_failures [] _).1 "boom" rfl,
    ((run_wraps_create_start_failures [] _).2 "abc" rfl rfl (by decide)).1,
    ((run_wraps_create_start_failures [] _).2 "abc" rfl rfl (by decide)).2⟩

/-- C8: after `stop()` completes, every session operation — `files.read`,
`files.write`, `commands.run` — raises the container-not-running error
rather than silently succeeding, whatever the engine exec behavior. -/
theorem ops_after_stop_raise (exec1 : List (String × String) → String → ExecOutcome)
    (sb : SandboxState) (eng : Engine) (path content cmd : String) :
    filesRead exec1 (stop sb eng).1 (stop sb eng).2 path = .error .notRunning ∧
    filesWrite exec1 (stop sb eng).1 (stop sb eng).2 path content = .error .notRunning ∧
    commandsRun exec1 (stop sb eng).1 (stop sb eng).2 cmd = .error .notRunning := by
  have h1 := stop_containerId_none sb eng
  exact ⟨by simp [filesRead, runInContainer, h1],
    by simp [filesWrite, h1],
    by simp [commandsRun, runInContainer, h1]⟩

/-- C9 counterexample: with an invalid handle (the held container id is not
listed by the engine), `containers.get` at the top of `_run_in_container`
fails OUTSIDE the try/except, so the transport failure propagates as an
exception instead of being returned as an `ExecutionResult`. -/
theorem exec_get_failure_propagates :
    runInContainer (fun _ _ => .raise "engine unreachable")
      ⟨some "c1", "aci-sandbox-00"⟩ ⟨[]⟩ "ls" = .error (.notFound "c1") := rfl

/-- C9 (amended): a transport failure raised by the exec call itself is
captured as a `DockerProcess` with empty stdout, a non-empty diagnostic
stderr and the non-zero sentinel exit code 1, and is returned (not raised);
only a failure of the handle resolution step propagates. -/
theorem exec_transport_failure_captured
    (exec1 : List (String × String) → String → ExecOutcome)
    (sb : SandboxState) (eng : Engine) (cid : String) (c : ContainerRec) (cmd msg : String)
    (hid : sb.containerId = some cid)
    (hfind : eng.findContainer cid = some c)
    (hexec : exec1 c.fs cmd = .raise msg) :
    runInContainer exec1 sb eng cmd
      = .ok (⟨"", "Docker exec error: " ++ msg, 1⟩, eng) ∧
    ("" : String) = "" ∧
    ("Docker exec error: " ++ msg) ≠ "" ∧
    (1 : Int) ≠ 0 := by
  refine ⟨by simp [runInContainer, hid, hfind, hexec], rfl, ?_, by decide⟩
  exact ne_empty_of_data_cons _ 'D' (("ocker exec error: " ++ msg).data) rfl

/-- Witness for the amended C9 at a concrete raising exec transport. -/
theorem exec_transport_captured_witness :
    (⟨some "c1", "aci-sandbox-00"⟩ : SandboxState).containerId = some "c1" ∧
    (⟨[⟨"c1", "aci-sandbox-00", []⟩]⟩ : Engine).findContainer "c1"
      = some ⟨"c1", "aci-sandbox-00", []⟩ ∧
    runInContainer (fun _ _ => .raise "engine unreachable")
      ⟨some "c1", "aci-sandbox-00"⟩ ⟨[⟨"c1", "aci-sandbox-00", []⟩]⟩ "ls"
      = .ok (⟨"", "Docker exec error: engine unreachable", 1⟩,
          ⟨[⟨"c1", "aci-sandbox-00", []⟩]⟩) ∧
    ("Docker exec error: engine unreachable") ≠ "" :=
  ⟨rfl, rfl,
    (exec_transport_failure_captured (fun _ _ => .raise "engine unreachable")
      ⟨some "c1", "aci-sandbox-00"⟩ ⟨[⟨"c1", "aci-sandbox-00", []⟩]⟩ "c1"
      ⟨"c1", "aci-sandbox-00", []⟩ "ls" "engine unreachable" rfl rfl rfl).1,
    (exec_transport_failure_captured (fun _ _ => .raise "engine unreachable")
      ⟨some "c1", "aci-sandbox-00"⟩ ⟨[⟨"c1", "aci-sandbox-00", []⟩]⟩ "c1"
      ⟨"c1", "aci-sandbox-00", []⟩ "ls" "engine unreachable" rfl rfl rfl).2.2.1⟩

/-- C10: `run_code` never propagates an exception — whenever writing the
temporary script or executing it raises, the caught exception is folded
into a `DockerExecution` whose stderr is the exception text, whose stdout
is empty and whose results list is empty (the return type itself is total:
nothing is raised to the caller). -/
theorem run_code_never_raises (exec1 : List (String × String) → String → ExecOutcome)
    (sb : SandboxState) (eng : Engine) (name code : String) (e : SbxError)
    (h : filesWrite exec1 sb eng ("/app/workspace/" ++ name) code = .error e ∨
      ∃ eng1, filesWrite exec1 sb eng ("/app/workspace/" ++ name) code = .ok eng1 ∧
        runInContainer exec1 sb eng1 ("python3 " ++ name) = .error e) :
    runCode exec1 sb eng name code = ⟨⟨"", e.message⟩, []⟩ := by
  rcases h with h | ⟨eng1, hw, hx⟩
  · simp [runCode, h]
  · simp [runCode, hw, hx]

/-- Witness for C10: after stop the write raises, and run_code returns the
exception text in stderr with empty stdout and no results. -/
theorem run_code_never_raises_witness :
    (filesWrite execRunModel ⟨none, "aci-sandbox-00"⟩ ⟨[]⟩
        ("/app/workspace/" ++ "temp_script_ab.py") "print(1)" = .error .notRunning ∨
      ∃ eng1, filesWrite execRunModel ⟨none, "aci-sandbox-00"⟩ ⟨[]⟩
          ("/app/workspace/" ++ "temp_script_ab.py") "print(1)" = .ok eng1 ∧
        runInContainer execRunModel ⟨none, "aci-sandbox-00"⟩ eng1
          ("python3 " ++ "temp_script_ab.py") = .error .notRunning) ∧
    runCode execRunModel ⟨none, "aci-sandbox-00"⟩ ⟨[]⟩ "temp_script_ab.py" "print(1)"
      = ⟨⟨"", "Docker sandbox container is not running."⟩, []⟩ :=
  ⟨Or.inl rfl,
    run_code_never_raises execRunModel ⟨none, "aci-sandbox-00"⟩ ⟨[]⟩
      "temp_script_ab.py" "print(1)" .notRunning (Or.inl rfl)⟩

/-- C2 counterexample: in `sandbox.py`, `DockerSandbox.run` on a command
whose target executable fails (exit 127, diagnostic on stderr) raises
`ContainerRuntimeError` instead of returning an `ExecutionResult` — the
target command's non-zero exit code IS converted into an infrastructure
error by this executor. -/
theorem target_failure_raises_in_cli_run :
    sandboxRun []
      ⟨.ok "abc123", 0, "", 127, "", "bash: nosuchx: command not found", 0, "/tmp/artifacts"⟩
      = (.error (.containerRuntime
          "Container exited with non-zero code 127:\nbash: nosuchx: command not found"), []) := rfl

/-- C2 (amended): the exec-channel executor of `docker_sandbox.py`
(`commands.run` via `_run_in_container`) carries a failing target command's
non-zero exit code and non-empty stderr as data inside the returned result
and raises nothing; but `sandbox.py`'s `DockerSandbox.run` instead raises
`ContainerRuntimeError` when the target command exits non-zero. -/
theorem target_failure_is_data (exec1 : List (String × String) → String → ExecOutcome)
    (sb : SandboxState) (eng : Engine) (cid : String) (c : ContainerRec)
    (cmd : String) (o1 : Option String) (errS : String) (code : Int)
    (fs1 : List (String × String))
    (hid : sb.containerId = some cid)
    (hfind : eng.findContainer cid = some c)
    (hexec : exec1 c.fs cmd = .ret o1 (some errS) code fs1)
    (hcode : code ≠ 0) (herr : errS ≠ "") :
    commandsRun exec1 sb eng cmd = .ok (⟨o1.getD "", errS, code⟩, eng.setFs cid fs1) ∧
    (⟨o1.getD "", errS, code⟩ : DockerProcess).exit_code ≠ 0 ∧
    (⟨o1.getD "", errS, code⟩ : DockerProcess).stderr ≠ "" :=
  ⟨by simp [commandsRun, runInContainer, hid, hfind, hexec], hcode, herr⟩

/-- Witness for the amended C2: an invalid executable yields exit 127 and a
diagnostic on stderr, and the executor returns that as data. -/
theorem target_failure_is_data_witness :
    (⟨some "c1", "aci-sandbox-00"⟩ : SandboxState).containerId = some "c1" ∧
    (⟨[⟨"c1", "aci-sandbox-00", []⟩]⟩ : Engine).findContainer "c1"
      = some ⟨"c1", "aci-sandbox-00", []⟩ ∧
    (127 : Int) ≠ 0 ∧
    ("bash: nosuchx: command not found\n") ≠ "" ∧
    commandsRun (fun _ _ => .ret none (some "bash: nosuchx: command not found\n") 127 [])
      ⟨some "c1", "aci-sandbox-00"⟩ ⟨[⟨"c1", "aci-sandbox-00", []⟩]⟩ "nosuchx"
      = .ok (⟨"", "bash: nosuchx: command not found\n", 127⟩,
          Engine.setFs ⟨[⟨"c1", "aci-sandbox-00", []⟩]⟩ "c1" []) :=
  ⟨rfl, rfl, by decide, by decide,
    (target_failure_is_data (fun _ _ => .ret none (some "bash: nosuchx: command not found\n") 127 [])
      ⟨some "c1", "aci-sandbox-00"⟩ ⟨[⟨"c1", "aci-sandbox-00", []⟩]⟩ "c1"
      ⟨"c1", "aci-sandbox-00", []⟩ "nosuchx" none "bash: nosuchx: command not found\n" 127 []
      rfl rfl rfl (by decide) (by decide)).1⟩

/-- C1: after `stop()` returns, the handle state is cleared (no container
id — the Removed state), no container with the session's name remains
listed by the engine (given that the session's name names only the
session's container, as docker enforces name uniqueness), and a subsequent
`stop()` on the same handle succeeds without error as a no-op; moreover for
the CLI sandbox, `run()` removes the created container from the engine on
every exit path — success, copy failure or command failure. -/
theorem session_cleanup (sb : SandboxState) (eng : Engine) (cid : String)
    (hid : sb.containerId = some cid)
    (hname : ∀ c ∈ eng.containers, c.name = sb.containerName → c.id = cid) :
    (stop sb eng).1.containerId = none ∧
    (∀ c ∈ (stop sb eng).2.containers, c.name ≠ sb.containerName) ∧
    stop (stop sb eng).1 (stop sb eng).2 = ((stop sb eng).1, (stop sb eng).2) ∧
    (∀ (engB : List String) (o : RunOracle) (cid2 : String),
      o.create = .ok cid2 → cid2 ∉ (sandboxRun engB o).2) := by
  have hstop : stop sb eng = ({ sb with containerId := none }, eng.removeContainer cid) := by
    simp [stop, hid]
  refine ⟨by rw [hstop], ?_, by rw [hstop]; rfl, ?_⟩
  · rw [hstop]
    intro c hc hcn
    rcases List.mem_filter.mp hc with ⟨hmem, hpred⟩
    have : c.id ≠ cid := by simpa using hpred
    exact this (hname c hmem hcn)
  · intro engB o cid2 hc
    simp only [sandboxRun, hc]
    split
    · simp [List.mem_filter]
    · split
      · simp [List.mem_filter]
      · simp [List.mem_filter]

/-- Witness for C1 at a concrete session and engine state, plus the run
cleanup at a concrete successful oracle. -/
theorem session_cleanup_witness :
    ((⟨some "c1", "aci-sandbox-00"⟩ : SandboxState).containerId = some "c1") ∧
    (∀ c ∈ (⟨[⟨"c1", "aci-sandbox-00", []⟩]⟩ : Engine).containers,
      c.name = "aci-sandbox-00" → c.id = "c1") ∧
    (stop ⟨some "c1", "aci-sandbox-00"⟩ ⟨[⟨"c1", "aci-sandbox-00", []⟩]⟩).1.containerId = none ∧
    (∀ c ∈ (stop ⟨some "c1", "aci-sandbox-00"⟩ ⟨[⟨"c1", "aci-sandbox-00", []⟩]⟩).2.containers,
      c.name ≠ "aci-sandbox-00") ∧
    "abc123" ∉ (sandboxRun [] ⟨.ok "abc123", 0, "", 0, "ok\n", "", 0, "/tmp/artifacts"⟩).2 := by
  have h := session_cleanup ⟨some "c1", "aci-sandbox-00"⟩ ⟨[⟨"c1", "aci-sandbox-00", []⟩]⟩
    "c1" rfl (by decide)
  exact ⟨rfl, by decide, h.1, h.2.1,
    h.2.2.2 [] ⟨.ok "abc123", 0, "", 0, "ok\n", "", 0, "/tmp/artifacts"⟩ "abc123" rfl⟩

/-- Sanity check of the staging model: writing the directory entry `.`
fails in the model just as the real staging `open` raises
`IsADirectoryError` (wrapped as a file-write error); it is not a round
trip success. -/
lemma write_dot_fails :
    filesWrite execRunModel ⟨some "c1", "aci-sandbox-00"⟩ ⟨[⟨"c1", "aci-sandbox-00", []⟩]⟩
      "/app/workspace/." "x" = .error (.stagingFailed ".") := rfl


end GenAIToolbox
